import Mathlib

/-!
Verification development for the NoCSimulation repository (3D-mesh NoC simulator).

Shallow embedding of the two Python source files:
  * `modified_noc_simulation.py`  (namespace `MSim` for its routing/simulation loop)
  * `noc_simulation.py`           (namespace `NSim` for its routing/thermal pass)
The data model (Packet / Router / Link / Wafer3DMeshTopology) is shared between
the two drafts: the Router/Link classes differ only in that the older draft
lacks the `power_state`, `fan_speed` and `packet_loss_rate` fields, which the
older draft's methods never read, so a single structure carrying the superset
of fields embeds both faithfully.

Modelling conventions:
  * Python floats are modelled as exact rationals (`ℚ`); the constants 0.1,
    0.3, 0.5 become 1/10, 3/10, 1/2.  No claim below hinges on IEEE rounding.
  * Python `random.random()` draws are an explicit oracle stream
    `draws : ℕ → ℚ`; `random.choice` / `random.randint` results are explicit
    parameters of the embedded simulation cycle.
  * Python `//` and `%` (floor division, nonnegative remainder for positive
    divisors) coincide with Lean's `Int` `/` and `%` (E-rounding) for the
    positive divisors used by the repository; we use `/` and `%` on `ℤ`.
  * Router objects are mutated in place in Python and held by reference in
    `self.routers`; the embedding addresses them by their list index and
    writes back with `List.set`.  Router identity (Python `==`/`in` on
    objects, which is reference identity) is represented by the router id,
    which is exact for topologies where `routers[i].router_id = i` — the form
    `createTopology` always produces.
  * Python's unbounded `while queue:` loops are embedded with an explicit
    fuel parameter; theorems quantify over the fuel, and concrete evaluations
    use ample fuel.
-/

/- Core marks the rational-arithmetic primitives `@[irreducible]`, which
blocks `decide`/`rfl` evaluation of the embedded simulator on concrete
inputs; restore the default reducibility for this file. -/
attribute [local semireducible] Rat.mul Rat.add Rat.sub Rat.inv

/- Concrete evaluations of the embedded simulator recurse through the
elaborator deeper than the default limit. -/
set_option maxRecDepth 100000

namespace NoCSim

/-- The six port directions of a router (`Router.ports` dict keys, in the
dict's insertion order east, west, north, south, up, down). -/
inductive Direction where
  | east | west | north | south | up | down
deriving DecidableEq, Repr

/-- Port-iteration order of `Router.ports.items()` (Python dict insertion
order: east, west, north, south, up, down). -/
def dirList : List Direction :=
  [.east, .west, .north, .south, .up, .down]

/-- `Wafer3DMeshTopology._get_opposite_direction` (both drafts). -/
def Direction.opposite : Direction → Direction
  | .east => .west
  | .west => .east
  | .north => .south
  | .south => .north
  | .up => .down
  | .down => .up

/-- `Router.power_state` values `'idle'` / `'active'`. -/
inductive PowerState where
  | idle | active
deriving DecidableEq, Repr

/-- `Packet` dataclass (identical in both drafts). -/
structure Packet where
  source_id : ℕ
  destination_id : ℕ
  creation_time : ℤ
  size : ℤ
  priority : ℤ
  current_hop_count : ℤ
deriving DecidableEq, Repr

/-- `Link.__init__` state (identical fields in both drafts). -/
structure Link where
  link_id : ℕ
  latency : ℤ
  bandwidth : ℚ
  utilization : ℚ
  failed : Bool
  current_load : ℤ
deriving DecidableEq, Repr

/-- `Router.__init__` state.  Superset of the fields of both drafts, see the
file header.  `ports` maps each direction to the index of a `Link` in the
topology's `links` arena (`none` = Python `None`). -/
structure Router where
  router_id : ℕ
  latency : ℤ
  ports : Direction → Option ℕ
  failed : Bool
  buffer_size : ℕ
  current_buffer_usage : ℕ
  temperature : ℚ
  power_consumption : ℚ
  packet_queue : List Packet
  power_state : PowerState
  fan_speed : ℤ
  packet_loss_rate : ℚ

/-- `Router(router_id=i, latency=l)`: the constructor's initial field values. -/
def mkRouter (i : ℕ) (lat : ℤ) : Router :=
  { router_id := i
    latency := lat
    ports := fun _ => none
    failed := false
    buffer_size := 64
    current_buffer_usage := 0
    temperature := 25
    power_consumption := 0
    packet_queue := []
    power_state := .idle
    fan_speed := 0
    packet_loss_rate := 0 }

/-- Helper for the Python assignment `router.ports[d] = link`. -/
def setPort (r : Router) (d : Direction) (v : Option ℕ) : Router :=
  { r with ports := fun d' => if d' = d then v else r.ports d' }

/-- `Link.can_transmit(packet_size)`:
`(current_load + packet_size) <= bandwidth * 1024`. -/
def Link.can_transmit (l : Link) (packet_size : ℤ) : Bool :=
  decide (((l.current_load + packet_size : ℤ) : ℚ) ≤ l.bandwidth * 1024)

/-- `Router.process_packet(packet)` (identical in both drafts): reject without
mutation when `current_buffer_usage >= buffer_size`, otherwise append to the
queue, bump the occupancy and add `0.1 * packet.size` to the power. -/
def Router.process_packet (r : Router) (p : Packet) : Router × Bool :=
  if r.buffer_size ≤ r.current_buffer_usage then (r, false)
  else
    ({ r with
        packet_queue := r.packet_queue ++ [p]
        current_buffer_usage := r.current_buffer_usage + 1
        power_consumption := r.power_consumption + (1/10) * (p.size : ℚ) },
      true)

/-- `Router.adjust_power_consumption(traffic_load)` (`modified` draft).  The
Python default argument is `traffic_load=0.5`; callers in the repository always
use the default, and the embedded call sites pass `1/2` explicitly. -/
def Router.adjust_power_consumption (r : Router) (traffic_load : ℚ) : Router :=
  if r.failed then { r with power_consumption := 0 }
  else if r.power_state = .active then { r with power_consumption := 5 * traffic_load }
  else if r.power_state = .idle then { r with power_consumption := 1 }
  else r

/-- `Router.update_temperature()` (`modified` draft), with its default
arguments `ambient_temp=25.0`, `heat_transfer_coefficient=0.1` (the repository
always calls it with the defaults).  Updates the temperature and then adjusts
the fan speed against the freshly updated temperature. -/
def Router.update_temperature (r : Router) : Router :=
  let heat_generated := r.power_consumption * (1/2)
  let cooling_effect := (r.fan_speed : ℚ) * (1/10)
  let temp := r.temperature + heat_generated - cooling_effect
      - (1/10) * (r.temperature - 25)
  let fan :=
    if 70 < temp then min (r.fan_speed + 1) 5
    else if temp < 60 then max (r.fan_speed - 1) 0
    else r.fan_speed
  { r with temperature := temp, fan_speed := fan }

/-- `Router.update_state_based_on_conditions()` (`modified` draft): mark failed
above 85°C, otherwise recompute the power state from the 30%-occupancy
threshold, and in every case re-run `adjust_power_consumption()` (with its
default load 0.5). -/
def Router.update_state_based_on_conditions (r : Router) : Router :=
  let r' :=
    if (85 : ℚ) < r.temperature then { r with failed := true }
    else if (r.current_buffer_usage : ℚ) < (r.buffer_size : ℚ) * (3/10) then
      { r with power_state := .idle }
    else { r with power_state := .active }
  r'.adjust_power_consumption (1/2)

/-- `Router.update_thermal_model(ambient_temp, neighboring_temps)` of the
`noc_simulation` draft (the one with the empty-neighbour guard). -/
def Router.update_thermal_model (r : Router) (ambient_temp : ℚ)
    (neighboring_temps : List ℚ) : Router :=
  if neighboring_temps = [] then { r with temperature := ambient_temp }
  else
    { r with
        temperature := r.temperature
          + (1/2) * (neighboring_temps.sum / (neighboring_temps.length : ℚ)
              - r.temperature)
          + r.power_consumption * (1/10) }

/-- `Wafer3DMeshTopology.__init__` state (identical in both drafts). -/
structure Wafer3DMeshTopology where
  num_rows : ℤ
  num_cols : ℤ
  num_layers : ℤ
  link_latency : ℤ
  router_latency : ℤ
  fault_probability : ℚ
  clock_cycle : ℤ
  total_packets_sent : ℕ
  total_packets_dropped : ℕ
  routers : List Router
  links : List Link

/-- `Wafer3DMeshTopology(num_rows, num_cols, num_layers, link_latency,
router_latency, fault_probability)` — the constructor stores the parameters
and performs no validation of any kind. -/
def initTopology (rows cols layers ll rl : ℤ) (fp : ℚ) : Wafer3DMeshTopology :=
  { num_rows := rows
    num_cols := cols
    num_layers := layers
    link_latency := ll
    router_latency := rl
    fault_probability := fp
    clock_cycle := 0
    total_packets_sent := 0
    total_packets_dropped := 0
    routers := []
    links := [] }

/-- Python `range(n)` as a list of integers (empty for `n ≤ 0`). -/
def pyRange (n : ℤ) : List ℤ :=
  (List.range n.toNat).map (fun (i : ℕ) => (i : ℤ))

namespace Wafer3DMeshTopology

/-- Fetch `self.routers[i]` (callers establish in-bounds access; the default
is never observed there). -/
def getRouterD (t : Wafer3DMeshTopology) (i : ℕ) : Router :=
  t.routers.getD i (mkRouter 0 1)

/-- Fetch `self.links[i]`. -/
def getLinkD (t : Wafer3DMeshTopology) (i : ℕ) : Link :=
  t.links.getD i { link_id := 0, latency := 1, bandwidth := 1, utilization := 0,
                   failed := false, current_load := 0 }

/-- `_get_router_index(x, y, z) = z*(num_rows*num_cols) + y*num_rows + x`
(identical in both drafts). -/
def get_router_index (t : Wafer3DMeshTopology) (x y z : ℤ) : ℤ :=
  z * (t.num_rows * t.num_cols) + y * t.num_rows + x

/-- `_is_valid_position(x, y, z)` (identical in both drafts). -/
def is_valid_position (t : Wafer3DMeshTopology) (x y z : ℤ) : Bool :=
  decide (0 ≤ x ∧ x < t.num_rows ∧ 0 ≤ y ∧ y < t.num_cols
    ∧ 0 ≤ z ∧ z < t.num_layers)

/-- `get_router_position(router_id)` (`modified` draft):
`z = id // (rows*cols)`, `y = (id % (rows*cols)) // rows`, `x = id % rows`,
returned as `(x, y, z)`. -/
def get_router_position (t : Wafer3DMeshTopology) (router_id : ℤ) : ℤ × ℤ × ℤ :=
  let layer_size := t.num_rows * t.num_cols
  (router_id % t.num_rows, (router_id % layer_size) / t.num_rows,
    router_id / layer_size)

/-- The `directions` list of `_connect_neighbors`:
`[('east', (1,0,0)), ('south', (0,1,0)), ('down', (0,0,1))]`. -/
def connectOffsets : List (Direction × ℤ × ℤ × ℤ) :=
  [(.east, 1, 0, 0), (.south, 0, 1, 0), (.down, 0, 0, 1)]

/-- One direction-iteration of `_connect_neighbors` for the cell `(x, y, z)`
(identical in both drafts).  The state is the topology plus the index of the
next unconsumed `random.random()` draw — a draw is consumed exactly when the
neighbouring position is valid, matching the Python control flow.  For the
three axis-aligned unit offsets, `distance_factor = np.sqrt(1) = 1.0` exactly,
so it is embedded as the rational 1 (kept explicit, as in the source).  A link
is created when `random.random() > fault_probability * distance_factor`; it is
placed on the cell's port `d` and on the neighbour's opposite port, then
appended to the link arena. -/
def connectStep (x y z : ℤ) (draws : ℕ → ℚ)
    (s : Wafer3DMeshTopology × ℕ) (dOff : Direction × ℤ × ℤ × ℤ) :
    Wafer3DMeshTopology × ℕ :=
  let t := s.1
  let k := s.2
  let d := dOff.1
  let dx := dOff.2.1
  let dy := dOff.2.2.1
  let dz := dOff.2.2.2
  if t.is_valid_position (x + dx) (y + dy) (z + dz) then
    let neighbor_idx := t.get_router_index (x + dx) (y + dy) (z + dz)
    let distance_factor : ℚ := 1
    let fault_prob := t.fault_probability * distance_factor
    if fault_prob < draws k then
      let linkIdx := t.links.length
      let link : Link :=
        { link_id := linkIdx, latency := t.link_latency,
          bandwidth := 1 / distance_factor, utilization := 0,
          failed := false, current_load := 0 }
      let idx := (t.get_router_index x y z).toNat
      let routers₁ := t.routers.set idx (setPort (t.getRouterD idx) d (some linkIdx))
      let t₁ := { t with routers := routers₁ }
      let routers₂ :=
        t₁.routers.set neighbor_idx.toNat
          (setPort (t₁.getRouterD neighbor_idx.toNat) d.opposite (some linkIdx))
      let t₂ := { t₁ with routers := routers₂ }
      ({ t₂ with links := t₂.links ++ [link] }, k + 1)
    else (t, k + 1)
  else (t, k)

/-- `createTopology()` (identical in both drafts): build one router per grid
cell (`router_id = i`, `latency = router_latency`), reset the link arena, then
for `z` in `range(num_layers)`, `y` in `range(num_cols)`, `x` in
`range(num_rows)` run `_connect_neighbors` on the cell. -/
def createTopology (t : Wafer3DMeshTopology) (draws : ℕ → ℚ) :
    Wafer3DMeshTopology :=
  let total := t.num_rows * t.num_cols * t.num_layers
  let t₁ := { t with
      routers := (pyRange total).map (fun i => mkRouter i.toNat t.router_latency)
      links := ([] : List Link) }
  let cells := (pyRange t.num_layers).flatMap (fun z =>
    (pyRange t.num_cols).flatMap (fun y =>
      (pyRange t.num_rows).map (fun x => (x, y, z))))
  (cells.foldl (fun s c => connectOffsets.foldl (connectStep c.1 c.2.1 c.2.2 draws) s)
    (t₁, 0)).1

end Wafer3DMeshTopology

/-! ## Routing and simulation loop of `modified_noc_simulation.py` -/

namespace MSim

open Wafer3DMeshTopology

/-- `get_neighbor_router(router, direction)` (`modified` draft), returning the
index/id of the neighbouring router instead of the object.  It converts the
router's own `router_id` to a position, applies the draft's offsets
(`east: x+1`, `west: x-1`, `north: y-1`, `south: y+1`, `up: z+1`,
`down: z-1` — note these are the source's literal offsets), and returns the
router at the resulting position when it is in bounds, else `None`. -/
def get_neighbor_router_id (t : Wafer3DMeshTopology) (r : Router)
    (d : Direction) : Option ℕ :=
  let p := t.get_router_position (r.router_id : ℤ)
  let x := p.1
  let y := p.2.1
  let z := p.2.2
  let q : ℤ × ℤ × ℤ :=
    match d with
    | .east => (x + 1, y, z)
    | .west => (x - 1, y, z)
    | .north => (x, y - 1, z)
    | .south => (x, y + 1, z)
    | .up => (x, y, z + 1)
    | .down => (x, y, z - 1)
  if t.is_valid_position q.1 q.2.1 q.2.2 then
    some (t.get_router_index q.1 q.2.1 q.2.2).toNat
  else none

/-- One port-iteration of the expansion loop of `find_backup_route`
(`modified` draft).  State: `(visited, queue)`.  Expand through port `d` of
router `cur` only if the port holds a link, the link is not failed, the
neighbour exists, is unvisited and not failed; then mark the neighbour visited
and append `(neighbour, path + [neighbour])` to the queue. -/
def expandStep (t : Wafer3DMeshTopology) (cur : ℕ) (path : List ℕ)
    (s : List ℕ × List (ℕ × List ℕ)) (d : Direction) :
    List ℕ × List (ℕ × List ℕ) :=
  match (t.getRouterD cur).ports d with
  | none => s
  | some li =>
    if (t.getLinkD li).failed then s
    else
      match get_neighbor_router_id t (t.getRouterD cur) d with
      | none => s
      | some v =>
        if v ∈ s.1 then s
        else if (t.getRouterD v).failed then s
        else (v :: s.1, s.2 ++ [(v, path ++ [v])])

/-- The `while queue:` loop of `find_backup_route` (`modified` draft), with an
explicit fuel bound standing in for the unbounded loop (one unit per
iteration; `none` on exhaustion).  Pop the front entry, return its path if it
is the destination, otherwise expand through the six ports in dict order and
continue. -/
def bfs (t : Wafer3DMeshTopology) (dstId : ℕ) :
    ℕ → List (ℕ × List ℕ) → List ℕ → Option (List ℕ)
  | 0, _, _ => none
  | _ + 1, [], _ => none
  | fuel + 1, (cur, path) :: rest, visited =>
    if cur = dstId then some path
    else
      let s := dirList.foldl (expandStep t cur path) (visited, rest)
      bfs t dstId fuel s.2 s.1

/-- `find_backup_route(source, destination)` (`modified` draft):
`visited = set()`, `queue = deque([(source, [source])])`, then the BFS loop.
Routers are addressed by id/index (see file header); the returned value is the
list of router ids of the path, `none` when the queue empties. -/
def find_backup_route (t : Wafer3DMeshTopology) (sourceId dstId : ℕ)
    (fuel : ℕ) : Option (List ℕ) :=
  bfs t dstId fuel [(sourceId, [sourceId])] []

/-- The per-cycle statistics record built by `simulate_network`.  `latency`
entries are `Option ℚ` where `none` models the float NaN that `np.mean([])`
returns for an empty list. -/
structure Stats where
  latency : List (Option ℚ)
  throughput : List ℚ
  dropped_packets : ℕ
  power_consumption : List ℚ
deriving DecidableEq, Repr

/-- `np.mean` on a (possibly empty) list of numbers: NaN — modelled as
`none` — for the empty list, else the arithmetic mean. -/
def npMean (l : List ℚ) : Option ℚ :=
  if l = [] then none else some (l.sum / (l.length : ℚ))

/-- `avg_latency if avg_latency else 0` (`simulate_network`, `modified`
draft): NaN (`none`) is truthy in Python and is appended as-is; a zero mean is
falsy and is replaced by the literal `0`. -/
def latencyEntry (avg : Option ℚ) : Option ℚ :=
  match avg with
  | none => none
  | some v => if v = 0 then some 0 else some v

/-- The packet-traversal loop of `simulate_network` (`modified` draft):
`for router in route: if not router.process_packet(packet):
stats['dropped_packets'] += 1; break`.  Routers are addressed by id/index and
written back into the arena. -/
def deliverRoute : Wafer3DMeshTopology → Stats → List ℕ → Packet →
    Wafer3DMeshTopology × Stats
  | t, stats, [], _ => (t, stats)
  | t, stats, rid :: rest, p =>
    let pr := (t.getRouterD rid).process_packet p
    let t' := { t with routers := t.routers.set rid pr.1 }
    if pr.2 then deliverRoute t' stats rest p
    else (t', { stats with dropped_packets := stats.dropped_packets + 1 })

/-- The per-router update of the thermal/power loop of `simulate_network`
(`modified` draft): `update_state_based_on_conditions()` then
`update_temperature()`. -/
def routerCycleUpdate (r : Router) : Router :=
  r.update_state_based_on_conditions.update_temperature

/-- One iteration of the `for _ in range(num_cycles)` loop of
`simulate_network` (`modified` draft).  The `random` calls are explicit
parameters: `injectDraw` is the `random.random()` compared with
`packet_injection_rate`; `srcIdx`/`dstIdx` are the indices picked by the two
`random.choice(self.routers)` calls; `sizeDraw` is the `random.randint(1, 10)`
result.  `lastPacket` is the function-scoped Python variable `packet`, which
survives between loop iterations and is read by the latency statistic.
In order: bump the clock; optionally inject (build the packet, route it with
`find_backup_route`, and when a route exists count it as sent and admit it at
every router of the route, recording a drop at the first rejection); then sum
the pre-update power of every router while applying
`update_state_based_on_conditions` and `update_temperature` to each; append
the power sum; append `np.mean` of `clock_cycle - packet.creation_time` over
the routers with a non-empty `packet_queue` (the leaked `packet` variable, not
each router's queued packet), through the `avg if avg else 0` truthiness
filter; append `total_packets_sent / clock_cycle`. -/
def simulateCycle (t : Wafer3DMeshTopology) (stats : Stats)
    (lastPacket : Option Packet) (rate injectDraw : ℚ) (srcIdx dstIdx : ℕ)
    (sizeDraw : ℤ) (fuel : ℕ) : Wafer3DMeshTopology × Stats × Option Packet :=
  let t₁ := { t with clock_cycle := t.clock_cycle + 1 }
  let afterInject : Wafer3DMeshTopology × Stats × Option Packet :=
    if injectDraw < rate then
      let source := t₁.getRouterD srcIdx
      let dest := t₁.getRouterD dstIdx
      if source.router_id ≠ dest.router_id then
        let packet : Packet :=
          { source_id := source.router_id, destination_id := dest.router_id,
            creation_time := t₁.clock_cycle, size := sizeDraw,
            priority := 0, current_hop_count := 0 }
        match find_backup_route t₁ source.router_id dest.router_id fuel with
        | some route =>
          let t₂ := { t₁ with total_packets_sent := t₁.total_packets_sent + 1 }
          let ds := deliverRoute t₂ stats route packet
          (ds.1, ds.2, some packet)
        | none => (t₁, stats, some packet)
      else (t₁, stats, lastPacket)
    else (t₁, stats, lastPacket)
  let t₂ := afterInject.1
  let stats₂ := afterInject.2.1
  let lp := afterInject.2.2
  let total_power := (t₂.routers.map (fun r => r.power_consumption)).sum
  let t₃ := { t₂ with routers := t₂.routers.map routerCycleUpdate }
  let latencies := t₃.routers.filterMap (fun r =>
    if r.packet_queue = [] then none
    else some ((t₃.clock_cycle : ℚ) -
      (((lp.getD { source_id := 0, destination_id := 0, creation_time := 0,
                   size := 0, priority := 0, current_hop_count := 0 }).creation_time : ℚ))))
  let avg_latency := npMean latencies
  let throughput := (t₃.total_packets_sent : ℚ) / (t₃.clock_cycle : ℚ)
  (t₃,
    { stats₂ with
        power_consumption := stats₂.power_consumption ++ [total_power]
        latency := stats₂.latency ++ [latencyEntry avg_latency]
        throughput := stats₂.throughput ++ [throughput] },
    lp)

end MSim

/-! ## Routing and thermal pass of `noc_simulation.py` -/

namespace NSim

open Wafer3DMeshTopology

/-- `_get_next_router_id(current_id, direction)` (`noc_simulation` draft):
decode `(x, y, z)` from the id with `//`/`%`, apply this draft's offsets
(`east: (1,0,0)`, `west: (-1,0,0)`, `north: (0,-1,0)`, `south: (0,1,0)`,
`up: (0,0,-1)`, `down: (0,0,1)`), and return the id at the new position when
valid. -/
def get_next_router_id (t : Wafer3DMeshTopology) (current_id : ℤ)
    (d : Direction) : Option ℤ :=
  let layer_size := t.num_rows * t.num_cols
  let z := current_id / layer_size
  let remaining := current_id % layer_size
  let y := remaining / t.num_rows
  let x := remaining % t.num_rows
  let o : ℤ × ℤ × ℤ :=
    match d with
    | .east => (1, 0, 0)
    | .west => (-1, 0, 0)
    | .north => (0, -1, 0)
    | .south => (0, 1, 0)
    | .up => (0, 0, -1)
    | .down => (0, 0, 1)
  if t.is_valid_position (x + o.1) (y + o.2.1) (z + o.2.2) then
    some (t.get_router_index (x + o.1) (y + o.2.1) (z + o.2.2))
  else none

/-- One port-iteration of the expansion loop of `find_backup_route`
(`noc_simulation` draft).  `visited` is fixed during the loop (it holds popped
router ids).  Skip if the port is empty or the link failed; then enqueue the
neighbour when its id exists, is not in `visited`, and
`link.can_transmit(packet_size=1)` holds. -/
def expandStep (t : Wafer3DMeshTopology) (visited : List ℕ) (cur : ℕ)
    (path : List ℕ) (queue : List (ℕ × List ℕ)) (d : Direction) :
    List (ℕ × List ℕ) :=
  match (t.getRouterD cur).ports d with
  | none => queue
  | some li =>
    if (t.getLinkD li).failed then queue
    else
      match get_next_router_id t ((t.getRouterD cur).router_id : ℤ) d with
      | none => queue
      | some n =>
        if n.toNat ∉ visited ∧ (t.getLinkD li).can_transmit 1 then
          queue ++ [(n.toNat, path ++ [n.toNat])]
        else queue

/-- The `while queue:` loop of `find_backup_route` (`noc_simulation` draft),
fuel-bounded (`[]` on exhaustion).  Pop the front entry; skip it when
`len(path) > max_hops`; return the path when the current router's id equals
the destination's id; otherwise add the current id to `visited` and expand
through the six ports in dict order. -/
def bfs (t : Wafer3DMeshTopology) (dstId : ℕ) (max_hops : ℕ) :
    ℕ → List (ℕ × List ℕ) → List ℕ → List ℕ
  | 0, _, _ => []
  | _ + 1, [], _ => []
  | fuel + 1, (cur, path) :: rest, visited =>
    if max_hops < path.length then bfs t dstId max_hops fuel rest visited
    else if (t.getRouterD cur).router_id = (t.getRouterD dstId).router_id then
      path
    else
      let visited' := (t.getRouterD cur).router_id :: visited
      bfs t dstId max_hops fuel
        (dirList.foldl (expandStep t visited' cur path) rest) visited'

/-- `find_backup_route(src_router, dst_router, max_hops=20)`
(`noc_simulation` draft).  Returns the path as router ids, `[]` when no path
is found. -/
def find_backup_route (t : Wafer3DMeshTopology) (srcId dstId : ℕ)
    (max_hops : ℕ) (fuel : ℕ) : List ℕ :=
  bfs t dstId max_hops fuel [(srcId, [srcId])] []

/-- `_get_neighbor_indices(router_id)` (`noc_simulation` draft): decode the
position, then collect the ids of the valid neighbours over the offsets
`[(1,0,0), (-1,0,0), (0,1,0), (0,-1,0), (0,0,1), (0,0,-1)]` in that order. -/
def get_neighbor_indices (t : Wafer3DMeshTopology) (router_id : ℤ) : List ℤ :=
  let layer_size := t.num_rows * t.num_cols
  let z := router_id / layer_size
  let remaining := router_id % layer_size
  let y := remaining / t.num_rows
  let x := remaining % t.num_rows
  ([(1, 0, 0), (-1, 0, 0), (0, 1, 0), (0, -1, 0), (0, 0, 1), (0, 0, -1)] :
      List (ℤ × ℤ × ℤ)).filterMap (fun o =>
    if t.is_valid_position (x + o.1) (y + o.2.1) (z + o.2.2) then
      some (t.get_router_index (x + o.1) (y + o.2.1) (z + o.2.2))
    else none)

/-- The thermal loop of `simulate_network` (`noc_simulation` draft), with the
router iteration order as an explicit list of indices (the source iterates
`for router in self.routers`, i.e. order `[0, 1, ..., n-1]`).  Each step reads
the *current* temperatures of the neighbours — including updates already made
earlier in the same pass — and overwrites the router in place
(`update_thermal_model(25.0, neighboring_temps)`). -/
def thermalPass (t : Wafer3DMeshTopology) (order : List ℕ) :
    Wafer3DMeshTopology :=
  order.foldl (fun t i =>
    let router := t.getRouterD i
    let neighboring_temps :=
      (get_neighbor_indices t (router.router_id : ℤ)).map
        (fun j => (t.getRouterD j.toNat).temperature)
    { t with routers := t.routers.set i (router.update_thermal_model 25 neighboring_temps) }) t

end NSim

/-! ## Path predicates

The spec's "expansion constraints" for a single hop, per draft.  A path is a
list of router ids whose consecutive pairs satisfy the hop predicate
(`List.Chain'`). -/

/-- One admissible hop of the `modified` draft's `find_backup_route`: some
port of `u` holds a link that is not failed, the draft's
`get_neighbor_router` yields `v` for that port, and `v` is not failed.
(This draft checks no link capacity.) -/
def MStepOK (t : Wafer3DMeshTopology) (u v : ℕ) : Prop :=
  ∃ d li, (t.getRouterD u).ports d = some li
    ∧ (t.getLinkD li).failed = false
    ∧ MSim.get_neighbor_router_id t (t.getRouterD u) d = some v
    ∧ (t.getRouterD v).failed = false

/-- One admissible hop of the `noc_simulation` draft's `find_backup_route`:
some port of `u` holds a link that is not failed and can transmit the nominal
probe size 1, and `_get_next_router_id` yields `v` for that port.  (This
draft does not check whether the neighbouring router is failed.) -/
def NStepOK (t : Wafer3DMeshTopology) (u v : ℕ) : Prop :=
  ∃ d li n, (t.getRouterD u).ports d = some li
    ∧ (t.getLinkD li).failed = false
    ∧ (t.getLinkD li).can_transmit 1 = true
    ∧ NSim.get_next_router_id t ((t.getRouterD u).router_id : ℤ) d = some n
    ∧ n.toNat = v

/-- Invariant of a `(router, path)` entry of the `modified` draft's BFS queue
for a search started at `src`: non-empty path starting at `src`, ending at
the entry's router, all consecutive hops admissible, and every router after
the first not failed. -/
def MEntryOK (t : Wafer3DMeshTopology) (src : ℕ) (e : ℕ × List ℕ) : Prop :=
  e.2 ≠ [] ∧ e.2.head? = some src ∧ e.2.getLast? = some e.1
    ∧ e.2.Chain' (MStepOK t)
    ∧ ∀ v ∈ e.2.tail, (t.getRouterD v).failed = false

/-- Invariant of a `(router, path)` entry of the `noc_simulation` draft's BFS
queue for a search started at `src`. -/
def NEntryOK (t : Wafer3DMeshTopology) (src : ℕ) (e : ℕ × List ℕ) : Prop :=
  e.2 ≠ [] ∧ e.2.head? = some src ∧ e.2.getLast? = some e.1
    ∧ e.2.Chain' (NStepOK t)

/-! ## Concrete instances used by the claim theorems -/

/-- A draw stream for `createTopology`: every `random.random()` draw is 1/2
(any stream of draws in `(fault_probability, 1)` produces the same-shaped
topology). -/
def halfDraws : ℕ → ℚ := fun _ => 1/2

/-- The 3×3×3 grid of the spec's routing test, built with
`fault_probability = 0` (all mesh links present). -/
def grid333 : Wafer3DMeshTopology :=
  (initTopology 3 3 3 1 1 0).createTopology halfDraws

/-- A 2×1×1 grid (two routers joined by one link), `fault_probability = 0`. -/
def grid211 : Wafer3DMeshTopology :=
  (initTopology 2 1 1 1 1 0).createTopology halfDraws

/-- A 2×1×1 grid built with `fault_probability = 1`: both routers exist but
no link is created. -/
def gridNoLinks : Wafer3DMeshTopology :=
  (initTopology 2 1 1 1 1 1).createTopology halfDraws

/-- `grid211` with its single link loaded to `current_load = 2000`, so
`can_transmit(1)` is false (capacity `bandwidth * 1024 = 1024`), while the
link is not failed. -/
def topoLoaded : Wafer3DMeshTopology :=
  { grid211 with links := grid211.links.map (fun l => { l with current_load := 2000 }) }

/-- `grid211` with router 1 marked failed (its link untouched). -/
def topoFailedDst : Wafer3DMeshTopology :=
  { grid211 with routers :=
      grid211.routers.set 1 { grid211.getRouterD 1 with failed := true } }

/-- `grid211` with router 1 heated to 35°C (router 0 stays at the initial
25°C); all power consumptions are the initial 0. -/
def topoTherm : Wafer3DMeshTopology :=
  { grid211 with routers :=
      grid211.routers.set 1 { grid211.getRouterD 1 with temperature := 35 } }

/-- A packet from router 0 to router 1 of size 2, created at cycle `ct`. -/
def pktAt (ct : ℤ) : Packet :=
  { source_id := 0, destination_id := 1, creation_time := ct, size := 2,
    priority := 0, current_hop_count := 0 }

/-- `grid211` at clock 9 with a size-2 packet created at cycle 1 queued at
router 0 and one created at cycle 3 queued at router 1. -/
def topoQueues : Wafer3DMeshTopology :=
  let rs0 := grid211.routers.set 0 { grid211.getRouterD 0 with packet_queue := [pktAt 1] }
  let t1 := { grid211 with routers := rs0 }
  let rs1 := t1.routers.set 1 { t1.getRouterD 1 with packet_queue := [pktAt 3] }
  { t1 with routers := rs1, clock_cycle := 9 }

/-- The empty statistics record `simulate_network` starts from. -/
def stats0 : MSim.Stats :=
  { latency := [], throughput := [], dropped_packets := 0, power_consumption := [] }

/-- A fresh router heated to 90°C whose `power_state` is `'active'` while its
buffer occupancy is 0. -/
def hotActiveRouter : Router :=
  { mkRouter 0 1 with temperature := 90, power_state := .active }

/-- A fresh router with a full buffer (occupancy = capacity = 64). -/
def fullBufRouter : Router :=
  { mkRouter 0 1 with current_buffer_usage := 64 }

/-- A failed router with spare buffer capacity (occupancy 3 of 64). -/
def failedRoomRouter : Router :=
  { mkRouter 0 1 with failed := true, current_buffer_usage := 3 }

/-! ## List helpers -/

theorem chain'_snoc {α : Type} {R : α → α → Prop} {l : List α} {a b : α}
    (hl : l.Chain' R) (hlast : l.getLast? = some a) (hab : R a b) :
    (l ++ [b]).Chain' R := by
  rw [List.chain'_append]
  refine ⟨hl, List.chain'_singleton _, ?_⟩
  intro x hx y hy
  rw [hlast] at hx
  simp only [Option.mem_def, Option.some.injEq, List.head?_cons] at hx hy
  subst hx; subst hy; exact hab

theorem head?_snoc {α : Type} {l : List α} {a : α} (h : l ≠ []) :
    (l ++ [a]).head? = l.head? := by
  cases l with
  | nil => exact absurd rfl h
  | cons x t => rfl

theorem mem_tail_snoc {α : Type} {l : List α} {a v : α} (h : l ≠ [])
    (hv : v ∈ (l ++ [a]).tail) : v ∈ l.tail ∨ v = a := by
  cases l with
  | nil => exact absurd rfl h
  | cons x t =>
    simp only [List.cons_append, List.tail_cons, List.mem_append,
      List.mem_singleton] at hv
    exact hv

/-! ## Soundness of the two `find_backup_route` variants -/

/-- Every entry added by one port-iteration of the `modified` BFS expansion is
either an old entry or an admissible one-hop extension of the popped entry. -/
theorem expandStepM_sub (t : Wafer3DMeshTopology) (cur : ℕ) (path : List ℕ)
    (s : List ℕ × List (ℕ × List ℕ)) (d : Direction) :
    ∀ e ∈ (MSim.expandStep t cur path s d).2,
      e ∈ s.2 ∨ ∃ v, e = (v, path ++ [v]) ∧ MStepOK t cur v := by
  intro e he
  unfold MSim.expandStep at he
  split at he
  · exact .inl he
  · next li hports =>
    split at he
    · exact .inl he
    · next hfail =>
      split at he
      · exact .inl he
      · next v hnb =>
        split at he
        · exact .inl he
        · split at he
          · exact .inl he
          · next hvfail =>
            rcases List.mem_append.mp he with h | h
            · exact .inl h
            · refine .inr ⟨v, List.mem_singleton.mp h, d, li, hports, ?_, hnb, ?_⟩
              · simpa using hfail
              · simpa using hvfail

/-- `expandStepM_sub` lifted over the fold across the port list. -/
theorem foldl_expandStepM_sub (t : Wafer3DMeshTopology) (cur : ℕ)
    (path : List ℕ) :
    ∀ (l : List Direction) (s : List ℕ × List (ℕ × List ℕ)),
      ∀ e ∈ (l.foldl (MSim.expandStep t cur path) s).2,
        e ∈ s.2 ∨ ∃ v, e = (v, path ++ [v]) ∧ MStepOK t cur v := by
  intro l
  induction l with
  | nil => intro s e he; exact .inl he
  | cons d ds ih =>
    intro s e he
    rcases ih (MSim.expandStep t cur path s d) e he with h | h
    · exact expandStepM_sub t cur path s d e h
    · exact .inr h

/-- Extending an admissible queue entry by an admissible hop preserves the
entry invariant. -/
theorem MEntryOK_extend {t : Wafer3DMeshTopology} {src cur : ℕ}
    {path : List ℕ} {v : ℕ}
    (h : MEntryOK t src (cur, path)) (hst : MStepOK t cur v) :
    MEntryOK t src (v, path ++ [v]) := by
  obtain ⟨hne, hhead, hlast, hchain, htail⟩ := h
  refine ⟨by simp, ?_, ?_, ?_, ?_⟩
  · rw [head?_snoc hne]; exact hhead
  · simp
  · exact chain'_snoc hchain hlast hst
  · intro w hw
    rcases mem_tail_snoc hne hw with h | h
    · exact htail w h
    · subst h
      obtain ⟨d, li, _, _, _, hvf⟩ := hst
      exact hvf

/-- Queue-invariant soundness of the `modified` draft's BFS loop: if every
queue entry is admissible and the loop returns a path, that path is an
admissible path from the source ending at the destination. -/
theorem bfsM_sound (t : Wafer3DMeshTopology) (src dst : ℕ) :
    ∀ (fuel : ℕ) (queue : List (ℕ × List ℕ)) (visited : List ℕ) (p : List ℕ),
      (∀ e ∈ queue, MEntryOK t src e) →
      MSim.bfs t dst fuel queue visited = some p →
      MEntryOK t src (dst, p) := by
  intro fuel
  induction fuel with
  | zero => intro queue visited p _ h; exact absurd h (by simp [MSim.bfs])
  | succ n ih =>
    intro queue visited p hq h
    match queue with
    | [] => exact absurd h (by simp [MSim.bfs])
    | (cur, path) :: rest =>
      rw [MSim.bfs] at h
      split at h
      · next hdst =>
        have := hq (cur, path) (List.mem_cons_self _ _)
        rw [Option.some.injEq] at h
        subst h; subst hdst
        exact this
      · refine ih _ _ p ?_ h
        intro e he
        rcases foldl_expandStepM_sub t cur path dirList (visited, rest) e he with
          hmem | ⟨v, rfl, hst⟩
        · exact hq e (List.mem_cons_of_mem _ hmem)
        · exact MEntryOK_extend (hq (cur, path) (List.mem_cons_self _ _)) hst

/-- Every entry added by one port-iteration of the `noc_simulation` BFS
expansion is either an old entry or an admissible one-hop extension. -/
theorem expandStepN_sub (t : Wafer3DMeshTopology) (visited : List ℕ)
    (cur : ℕ) (path : List ℕ) (queue : List (ℕ × List ℕ)) (d : Direction) :
    ∀ e ∈ NSim.expandStep t visited cur path queue d,
      e ∈ queue ∨ ∃ v, e = (v, path ++ [v]) ∧ NStepOK t cur v := by
  intro e he
  unfold NSim.expandStep at he
  split at he
  · exact .inl he
  · next li hports =>
    split at he
    · exact .inl he
    · next hfail =>
      split at he
      · exact .inl he
      · next n hnext =>
        split at he
        · next hcond =>
          rcases List.mem_append.mp he with h | h
          · exact .inl h
          · refine .inr ⟨n.toNat, List.mem_singleton.mp h,
              d, li, n, hports, by simpa using hfail, hcond.2, hnext, rfl⟩
        · exact .inl he

/-- `expandStepN_sub` lifted over the fold across the port list. -/
theorem foldl_expandStepN_sub (t : Wafer3DMeshTopology) (visited : List ℕ)
    (cur : ℕ) (path : List ℕ) :
    ∀ (l : List Direction) (queue : List (ℕ × List ℕ)),
      ∀ e ∈ l.foldl (NSim.expandStep t visited cur path) queue,
        e ∈ queue ∨ ∃ v, e = (v, path ++ [v]) ∧ NStepOK t cur v := by
  intro l
  induction l with
  | nil => intro queue e he; exact .inl he
  | cons d ds ih =>
    intro queue e he
    rcases ih (NSim.expandStep t visited cur path queue d) e he with h | h
    · exact expandStepN_sub t visited cur path queue d e h
    · exact .inr h

/-- Extending an admissible `noc_simulation` queue entry by an admissible hop
preserves the entry invariant. -/
theorem NEntryOK_extend {t : Wafer3DMeshTopology} {src cur : ℕ}
    {path : List ℕ} {v : ℕ}
    (h : NEntryOK t src (cur, path)) (hst : NStepOK t cur v) :
    NEntryOK t src (v, path ++ [v]) := by
  obtain ⟨hne, hhead, hlast, hchain⟩ := h
  exact ⟨by simp, by rw [head?_snoc hne]; exact hhead, by simp,
    chain'_snoc hchain hlast hst⟩

/-- Queue-invariant soundness of the `noc_simulation` draft's BFS loop. -/
theorem bfsN_sound (t : Wafer3DMeshTopology) (src dst max_hops : ℕ) :
    ∀ (fuel : ℕ) (queue : List (ℕ × List ℕ)) (visited : List ℕ) (p : List ℕ),
      (∀ e ∈ queue, NEntryOK t src e) →
      NSim.bfs t dst max_hops fuel queue visited = p →
      p ≠ [] →
      p.head? = some src ∧ p.Chain' (NStepOK t) := by
  intro fuel
  induction fuel with
  | zero =>
    intro queue visited p _ h hne
    rw [NSim.bfs] at h
    exact absurd h.symm hne
  | succ n ih =>
    intro queue visited p hq h hne
    match queue with
    | [] =>
      rw [NSim.bfs] at h
      exact absurd h.symm hne
    | (cur, path) :: rest =>
      rw [NSim.bfs] at h
      split at h
      · exact ih rest visited p (fun e he => hq e (List.mem_cons_of_mem _ he)) h hne
      · split at h
        · have hcur := hq (cur, path) (List.mem_cons_self _ _)
          subst h
          exact ⟨hcur.2.1, hcur.2.2.2⟩
        · refine ih _ _ p ?_ h hne
          intro e he
          rcases foldl_expandStepN_sub t _ cur path dirList rest e he with
            hmem | ⟨v, rfl, hst⟩
          · exact hq e (List.mem_cons_of_mem _ hmem)
          · exact NEntryOK_extend (hq (cur, path) (List.mem_cons_self _ _)) hst

/-! ## Topology-construction lemmas -/

/-- `_connect_neighbors` only rewires ports; it never adds or removes
routers. -/
theorem connectStep_routers_length (x y z : ℤ) (draws : ℕ → ℚ)
    (s : Wafer3DMeshTopology × ℕ) (dOff : Direction × ℤ × ℤ × ℤ) :
    (Wafer3DMeshTopology.connectStep x y z draws s dOff).1.routers.length
      = s.1.routers.length := by
  simp only [Wafer3DMeshTopology.connectStep]
  split
  · split
    · simp
    · rfl
  · rfl

/-- The inner fold of `_connect_neighbors` preserves the router count. -/
theorem foldl_connectStep_routers_length (x y z : ℤ) (draws : ℕ → ℚ) :
    ∀ (offs : List (Direction × ℤ × ℤ × ℤ)) (s : Wafer3DMeshTopology × ℕ),
      (offs.foldl (Wafer3DMeshTopology.connectStep x y z draws) s).1.routers.length
        = s.1.routers.length := by
  intro offs
  induction offs with
  | nil => intro s; rfl
  | cons o os ih =>
    intro s
    rw [List.foldl_cons, ih, connectStep_routers_length]

/-- The cell loop of `createTopology` preserves the router count. -/
theorem foldl_cells_routers_length (draws : ℕ → ℚ) :
    ∀ (cells : List (ℤ × ℤ × ℤ)) (s : Wafer3DMeshTopology × ℕ),
      (cells.foldl (fun s c =>
          Wafer3DMeshTopology.connectOffsets.foldl
            (Wafer3DMeshTopology.connectStep c.1 c.2.1 c.2.2 draws) s) s).1.routers.length
        = s.1.routers.length := by
  intro cells
  induction cells with
  | nil => intro s; rfl
  | cons c cs ih =>
    intro s
    rw [List.foldl_cons, ih, foldl_connectStep_routers_length]

/-- `createTopology` creates exactly `(num_rows * num_cols * num_layers).toNat`
routers — with no validation of the parameters whatsoever (a non-positive
dimension simply yields an empty router list, exactly as Python's
`range` of a non-positive bound does). -/
theorem createTopology_routers_length (t : Wafer3DMeshTopology)
    (draws : ℕ → ℚ) :
    (t.createTopology draws).routers.length
      = (t.num_rows * t.num_cols * t.num_layers).toNat := by
  unfold Wafer3DMeshTopology.createTopology
  rw [foldl_cells_routers_length]
  show ((pyRange (t.num_rows * t.num_cols * t.num_layers)).map
    (fun i => mkRouter i.toNat t.router_latency)).length = _
  rw [List.length_map]
  unfold pyRange
  rw [List.length_map, List.length_range]

/-! ## Coordinate / id conversion lemmas -/

/-- `_get_router_index` after `get_router_position` restores the id (this
direction needs no range assumptions at all). -/
theorem index_of_position (t : Wafer3DMeshTopology) (rid : ℤ) :
    t.get_router_index (t.get_router_position rid).1
      (t.get_router_position rid).2.1 (t.get_router_position rid).2.2 = rid := by
  unfold Wafer3DMeshTopology.get_router_index Wafer3DMeshTopology.get_router_position
  set r := t.num_rows
  set L := t.num_rows * t.num_cols with hL
  have h1 : L * (rid / L) + rid % L = rid := Int.ediv_add_emod rid L
  have h2 : r * (rid % L / r) + rid % L % r = rid % L := Int.ediv_add_emod (rid % L) r
  have h3 : rid % L % r = rid % r := by
    refine Int.emod_emod_of_dvd rid ⟨t.num_cols, rfl⟩
  simp only []
  nlinarith [h1, h2, h3]

/-- `get_router_position` after `_get_router_index` restores in-range
coordinates, and the id is in `[0, rows*cols*layers)`. -/
theorem position_of_index (t : Wafer3DMeshTopology) (x y z : ℤ)
    (hx0 : 0 ≤ x) (hxr : x < t.num_rows) (hy0 : 0 ≤ y) (hyc : y < t.num_cols)
    (hz0 : 0 ≤ z) (hzl : z < t.num_layers) :
    t.get_router_position (t.get_router_index x y z) = (x, y, z)
      ∧ 0 ≤ t.get_router_index x y z
      ∧ t.get_router_index x y z < t.num_rows * t.num_cols * t.num_layers := by
  have hr : (0 : ℤ) < t.num_rows := lt_of_le_of_lt hx0 hxr
  have hc : (0 : ℤ) < t.num_cols := lt_of_le_of_lt hy0 hyc
  have hL : (0 : ℤ) < t.num_rows * t.num_cols := mul_pos hr hc
  unfold Wafer3DMeshTopology.get_router_index Wafer3DMeshTopology.get_router_position
  set r := t.num_rows
  set L := t.num_rows * t.num_cols with hLdef
  have hform : z * L + y * r + x = (y * r + x) + z * L := by ring
  have hyrx0 : 0 ≤ y * r + x := by positivity
  have hyrxL : y * r + x < L := by nlinarith
  have hmodL : (z * L + y * r + x) % L = y * r + x := by
    rw [hform, Int.add_mul_emod_self, Int.emod_eq_of_lt hyrx0 hyrxL]
  have hdivL : (z * L + y * r + x) / L = z := by
    rw [hform, Int.add_mul_ediv_right _ _ (ne_of_gt hL),
      Int.ediv_eq_zero_of_lt hyrx0 hyrxL, zero_add]
  have hform2 : y * r + x = x + y * r := by ring
  have hmodr : (y * r + x) % r = x := by
    rw [hform2, Int.add_mul_emod_self, Int.emod_eq_of_lt hx0 hxr]
  have hdivr : (y * r + x) / r = y := by
    rw [hform2, Int.add_mul_ediv_right _ _ (ne_of_gt hr),
      Int.ediv_eq_zero_of_lt hx0 hxr, zero_add]
  have hmodr' : (z * L + y * r + x) % r = x := by
    have : (z * L + y * r + x) % L % r = (z * L + y * r + x) % r :=
      Int.emod_emod_of_dvd _ ⟨t.num_cols, rfl⟩
    rw [← this, hmodL, hmodr]
  refine ⟨?_, ?_, ?_⟩
  · simp only [Prod.mk.injEq]
    exact ⟨hmodr', by rw [hmodL, hdivr], hdivL⟩
  · positivity
  · nlinarith

/-! ## Router-update helper lemmas -/

/-- `adjust_power_consumption` only writes `power_consumption`; the power
state is untouched. -/
theorem adjust_power_state (r : Router) (tl : ℚ) :
    (r.adjust_power_consumption tl).power_state = r.power_state := by
  unfold Router.adjust_power_consumption
  repeat' split
  all_goals rfl

/-- `adjust_power_consumption` leaves the buffer occupancy unchanged. -/
theorem adjust_usage (r : Router) (tl : ℚ) :
    (r.adjust_power_consumption tl).current_buffer_usage
      = r.current_buffer_usage := by
  unfold Router.adjust_power_consumption
  repeat' split
  all_goals rfl

/-- `update_temperature` only writes `temperature` and `fan_speed`. -/
theorem update_temperature_power_state (r : Router) :
    r.update_temperature.power_state = r.power_state := rfl

/-- `update_temperature` leaves the buffer occupancy unchanged. -/
theorem update_temperature_usage (r : Router) :
    r.update_temperature.current_buffer_usage = r.current_buffer_usage := rfl

/-! ## Claims -/

/-- C4, counterexample: constructing a topology with the invalid dimension
`rows = 0` (the claim requires this to fail with `InvalidTopologyParameters`)
succeeds and returns an empty router and link collection — no validation or
failure path exists in `__init__`/`createTopology`. -/
theorem claim_C4_counterexample :
    ((initTopology 0 3 3 1 1 (1/10)).createTopology halfDraws).routers.length = 0
    ∧ ((initTopology 0 3 3 1 1 (1/10)).createTopology halfDraws).links.length = 0 := by
  exact ⟨by decide, by decide⟩

/-- C4, amended: construction never fails for any parameters (in range or
not): `__init__` stores the parameters unvalidated and `createTopology`
always returns normally, producing `max(rows*cols*layers, 0)` routers
— Python's `range` of a non-positive bound is simply empty.  In-range
parameters therefore succeed, as the claim states, but out-of-range
parameters do not raise `InvalidTopologyParameters` (no such exception
exists in the code). -/
theorem claim_C4_theorem (rows cols layers ll rl : ℤ) (fp : ℚ)
    (draws : ℕ → ℚ) :
    ((initTopology rows cols layers ll rl fp).createTopology draws).routers.length
      = (rows * cols * layers).toNat :=
  createTopology_routers_length _ draws

/-- C5: `process_packet` (identical in both drafts), on any router state
satisfying the occupancy invariant `buffer_occupancy ≤ buffer_capacity`,
returns `false` with no state change exactly when occupancy equals capacity
before the call; otherwise it returns `true`, enqueues the packet, increments
the occupancy, and adds `0.1 * packet.size` to the power consumption; and the
resulting occupancy never exceeds the capacity. -/
theorem claim_C5_theorem (r : Router) (p : Packet)
    (h : r.current_buffer_usage ≤ r.buffer_size) :
    (((r.process_packet p).2 = false ∧ (r.process_packet p).1 = r) ↔
        r.current_buffer_usage = r.buffer_size)
    ∧ (r.current_buffer_usage < r.buffer_size →
        (r.process_packet p).2 = true
        ∧ (r.process_packet p).1.packet_queue = r.packet_queue ++ [p]
        ∧ (r.process_packet p).1.current_buffer_usage = r.current_buffer_usage + 1
        ∧ (r.process_packet p).1.power_consumption
            = r.power_consumption + (1/10) * (p.size : ℚ))
    ∧ (r.process_packet p).1.current_buffer_usage ≤ r.buffer_size := by
  by_cases hc : r.buffer_size ≤ r.current_buffer_usage
  · have hpp : r.process_packet p = (r, false) := by
      unfold Router.process_packet
      rw [if_pos hc]
    have heq : r.current_buffer_usage = r.buffer_size := le_antisymm h hc
    rw [hpp]
    exact ⟨⟨fun _ => heq, fun _ => ⟨rfl, rfl⟩⟩,
      fun hlt => absurd heq (by omega), h⟩
  · have hpp : r.process_packet p =
        ({ r with
            packet_queue := r.packet_queue ++ [p]
            current_buffer_usage := r.current_buffer_usage + 1
            power_consumption := r.power_consumption + (1/10) * (p.size : ℚ) },
          true) := by
      unfold Router.process_packet
      rw [if_neg hc]
    push_neg at hc
    rw [hpp]
    refine ⟨⟨fun hcon => by simp at hcon, fun heq => absurd heq (by omega)⟩,
      fun _ => ⟨rfl, rfl, rfl, rfl⟩, ?_⟩
    show r.current_buffer_usage + 1 ≤ r.buffer_size
    omega

/-- C5, witness: the theorem applied to a concrete full router (occupancy =
capacity = 64) and a concrete packet. -/
theorem claim_C5_witness :
    (((fullBufRouter.process_packet (pktAt 0)).2 = false
        ∧ (fullBufRouter.process_packet (pktAt 0)).1 = fullBufRouter) ↔
      fullBufRouter.current_buffer_usage = fullBufRouter.buffer_size)
    ∧ (fullBufRouter.current_buffer_usage < fullBufRouter.buffer_size →
        (fullBufRouter.process_packet (pktAt 0)).2 = true
        ∧ (fullBufRouter.process_packet (pktAt 0)).1.packet_queue
            = fullBufRouter.packet_queue ++ [pktAt 0]
        ∧ (fullBufRouter.process_packet (pktAt 0)).1.current_buffer_usage
            = fullBufRouter.current_buffer_usage + 1
        ∧ (fullBufRouter.process_packet (pktAt 0)).1.power_consumption
            = fullBufRouter.power_consumption + (1/10) * ((pktAt 0).size : ℚ))
    ∧ (fullBufRouter.process_packet (pktAt 0)).1.current_buffer_usage
        ≤ fullBufRouter.buffer_size :=
  claim_C5_theorem fullBufRouter (pktAt 0) (by decide)

/-- C8, counterexample: a router at 90°C with `power_state = 'active'` and
occupancy 0.  `update_state_based_on_conditions` takes the thermal-failure
branch and never recomputes the power state, so after the per-cycle update
the state is still `'active'` although occupancy 0 is far below
`0.3 * buffer_capacity` — the claimed iff fails. -/
theorem claim_C8_counterexample :
    (MSim.routerCycleUpdate hotActiveRouter).power_state = .active
    ∧ ¬ ((3/10 : ℚ) * (hotActiveRouter.buffer_size : ℚ)
          ≤ (hotActiveRouter.current_buffer_usage : ℚ)) := by
  exact ⟨by decide, by decide⟩

/-- C8, amended: the claimed iff holds for every router whose temperature is
at most 85°C when the cycle update runs (the branch that recomputes the power
state); above 85°C the router is marked failed and `power_state` keeps its
previous value.  The cycle update never changes the occupancy. -/
theorem claim_C8_theorem (r : Router) (h : r.temperature ≤ 85) :
    ((MSim.routerCycleUpdate r).power_state = .active ↔
        (3/10 : ℚ) * (r.buffer_size : ℚ) ≤ (r.current_buffer_usage : ℚ))
    ∧ (MSim.routerCycleUpdate r).current_buffer_usage
        = r.current_buffer_usage := by
  have hnot : ¬ ((85 : ℚ) < r.temperature) := not_lt.mpr h
  have hps : (MSim.routerCycleUpdate r).power_state
      = r.update_state_based_on_conditions.power_state := by
    simp only [MSim.routerCycleUpdate]
    exact update_temperature_power_state _
  have hus : (MSim.routerCycleUpdate r).current_buffer_usage
      = r.update_state_based_on_conditions.current_buffer_usage := by
    simp only [MSim.routerCycleUpdate]
    exact update_temperature_usage _
  simp only [Router.update_state_based_on_conditions] at hps hus
  rw [if_neg hnot] at hps hus
  rw [adjust_power_state] at hps
  rw [adjust_usage] at hus
  by_cases hocc : (r.current_buffer_usage : ℚ) < (r.buffer_size : ℚ) * (3/10)
  · rw [if_pos hocc] at hps hus
    refine ⟨?_, hus⟩
    rw [hps]
    constructor
    · intro hcontra
      exact absurd hcontra (by simp)
    · intro hge
      exfalso
      nlinarith [hge, hocc]
  · rw [if_neg hocc] at hps hus
    push_neg at hocc
    refine ⟨?_, hus⟩
    rw [hps]
    exact ⟨fun _ => by nlinarith [hocc], fun _ => rfl⟩

/-- C8, witness: the amended theorem applied to a fresh router (25°C, idle,
occupancy 0, capacity 64). -/
theorem claim_C8_witness :
    ((MSim.routerCycleUpdate (mkRouter 0 1)).power_state = .active ↔
        (3/10 : ℚ) * ((mkRouter 0 1).buffer_size : ℚ)
          ≤ ((mkRouter 0 1).current_buffer_usage : ℚ))
    ∧ (MSim.routerCycleUpdate (mkRouter 0 1)).current_buffer_usage
        = (mkRouter 0 1).current_buffer_usage :=
  claim_C8_theorem (mkRouter 0 1) (by decide)

/-- C9: for positive dimensions, `createTopology` creates exactly
`rows*cols*layers` routers, and the id formula is a bijection between ids in
range and in-bounds coordinates: `get_router_position` followed by
`_get_router_index` is the identity on ids, and `_get_router_index` followed
by `get_router_position` is the identity on in-bounds coordinates, with the
resulting id in range. -/
theorem claim_C9_theorem (t : Wafer3DMeshTopology) (draws : ℕ → ℚ)
    (_hr : 0 < t.num_rows) (_hc : 0 < t.num_cols) (_hl : 0 < t.num_layers) :
    (t.createTopology draws).routers.length
        = (t.num_rows * t.num_cols * t.num_layers).toNat
    ∧ (∀ rid : ℤ, 0 ≤ rid → rid < t.num_rows * t.num_cols * t.num_layers →
        t.get_router_index (t.get_router_position rid).1
          (t.get_router_position rid).2.1 (t.get_router_position rid).2.2 = rid)
    ∧ (∀ x y z : ℤ, 0 ≤ x → x < t.num_rows → 0 ≤ y → y < t.num_cols →
        0 ≤ z → z < t.num_layers →
        t.get_router_position (t.get_router_index x y z) = (x, y, z)
          ∧ 0 ≤ t.get_router_index x y z
          ∧ t.get_router_index x y z < t.num_rows * t.num_cols * t.num_layers) :=
  ⟨createTopology_routers_length t draws,
    fun rid _ _ => index_of_position t rid,
    fun x y z hx0 hxr hy0 hyc hz0 hzl =>
      position_of_index t x y z hx0 hxr hy0 hyc hz0 hzl⟩

/-- C9, witness: the theorem applied to the 3×3×3 topology, with the round
trips evaluated at id 14 and at coordinates (1, 2, 0). -/
theorem claim_C9_witness :
    ((initTopology 3 3 3 1 1 0).createTopology halfDraws).routers.length = 27
    ∧ (initTopology 3 3 3 1 1 0).get_router_index
        ((initTopology 3 3 3 1 1 0).get_router_position 14).1
        ((initTopology 3 3 3 1 1 0).get_router_position 14).2.1
        ((initTopology 3 3 3 1 1 0).get_router_position 14).2.2 = 14
    ∧ (initTopology 3 3 3 1 1 0).get_router_position
        ((initTopology 3 3 3 1 1 0).get_router_index 1 2 0) = (1, 2, 0) := by
  have h := claim_C9_theorem (initTopology 3 3 3 1 1 0) halfDraws
    (by decide) (by decide) (by decide)
  exact ⟨h.1.trans (by decide), h.2.1 14 (by decide) (by decide),
    (h.2.2 1 2 0 (by decide) (by decide) (by decide) (by decide) (by decide)
      (by decide)).1⟩

/-- C10: `process_packet` (identical in both drafts) does not consult the
`failed` flag: a failed router with spare buffer capacity still accepts the
packet, enqueues it, increments occupancy and adds `0.1 * packet.size` to its
power consumption. -/
theorem claim_C10_theorem (r : Router) (p : Packet) (hfail : r.failed = true)
    (h : r.current_buffer_usage < r.buffer_size) :
    (r.process_packet p).2 = true
    ∧ (r.process_packet p).1.packet_queue = r.packet_queue ++ [p]
    ∧ (r.process_packet p).1.current_buffer_usage = r.current_buffer_usage + 1
    ∧ (r.process_packet p).1.power_consumption
        = r.power_consumption + (1/10) * (p.size : ℚ)
    ∧ (r.process_packet p).1.failed = true := by
  have hc : ¬ r.buffer_size ≤ r.current_buffer_usage := by omega
  have hpp : r.process_packet p =
      ({ r with
          packet_queue := r.packet_queue ++ [p]
          current_buffer_usage := r.current_buffer_usage + 1
          power_consumption := r.power_consumption + (1/10) * (p.size : ℚ) },
        true) := by
    unfold Router.process_packet
    rw [if_neg hc]
  rw [hpp]
  exact ⟨rfl, rfl, rfl, rfl, hfail⟩

/-- C1: evaluation of both drafts' `find_backup_route` at the spec's routing
test — the 3×3×3 grid built with `fault_probability = 0` (all 54 mesh links
present), source router 0 = (0,0,0), destination router 26 = (2,2,2).  The
`noc_simulation` draft (called with `max_hops = 20`) returns the minimum-hop
path of exactly 7 routers, as the claim states; but the `modified` draft
returns no route at all: its `get_neighbor_router` maps `'up'` to `z+1` and
`'down'` to `z-1`, while `createTopology` wires the `'down'` port of each
router to its `z+1` neighbour (and the neighbour's `'up'` port back), so on
layer 0 the `'up'` port is empty and the `'down'` port leads out of bounds —
no vertical move out of layer 0 is ever possible, and (2,2,2) is
unreachable. -/
theorem claim_C1_theorem :
    grid333.links.length = 54
    ∧ MSim.find_backup_route grid333 0 26 200 = none
    ∧ NSim.find_backup_route grid333 0 26 20 600 = [0, 1, 2, 5, 8, 17, 26]
    ∧ (NSim.find_backup_route grid333 0 26 20 600).length = 7 := by
  have h2 : NSim.find_backup_route grid333 0 26 20 600
      = [0, 1, 2, 5, 8, 17, 26] := by decide
  exact ⟨by decide, by decide, h2, by rw [h2]; rfl⟩

/-- C2, counterexample: (a) `topoLoaded` is a two-router topology whose only
link is healthy but loaded beyond capacity (`can_transmit(1)` is false); the
`modified` draft's `find_backup_route` still returns the path `[0, 1]`
through it — the claimed capacity constraint is not checked.  (b)
`topoFailedDst` is a two-router topology whose router 1 is failed with a
healthy, unloaded link; the `noc_simulation` draft still returns `[0, 1]` —
the claimed non-failed-router constraint is not checked there. -/
theorem claim_C2_counterexample :
    topoLoaded.links.length = 1
    ∧ MSim.find_backup_route topoLoaded 0 1 10 = some [0, 1]
    ∧ (topoLoaded.getRouterD 0).ports .east = some 0
    ∧ (topoLoaded.getLinkD 0).can_transmit 1 = false
    ∧ (topoLoaded.getLinkD 0).failed = false
    ∧ NSim.find_backup_route topoFailedDst 0 1 20 10 = [0, 1]
    ∧ (topoFailedDst.getRouterD 1).failed = true := by
  exact ⟨by decide, by decide, by decide, by decide, by decide, by decide,
    by decide⟩

/-- C2, amended: every path returned by the `modified` draft's
`find_backup_route` starts at the source, ends at the destination, and each
hop goes through a port holding a non-failed link to a non-failed router —
but no capacity check is made; every (non-empty) path returned by the
`noc_simulation` draft starts at the source and each hop goes through a port
holding a non-failed link that can admit the probe size 1 — but the routers
on the path may be failed. -/
theorem claim_C2_theorem :
    (∀ (t : Wafer3DMeshTopology) (src dst fuel : ℕ) (p : List ℕ),
        MSim.find_backup_route t src dst fuel = some p →
        p ≠ [] ∧ p.head? = some src ∧ p.getLast? = some dst
          ∧ p.Chain' (MStepOK t)
          ∧ ∀ v ∈ p.tail, (t.getRouterD v).failed = false)
    ∧ (∀ (t : Wafer3DMeshTopology) (src dst mh fuel : ℕ) (p : List ℕ),
        NSim.find_backup_route t src dst mh fuel = p → p ≠ [] →
        p.head? = some src ∧ p.Chain' (NStepOK t)) := by
  constructor
  · intro t src dst fuel p h
    have hstart : ∀ e ∈ [(src, [src])], MEntryOK t src e := by
      intro e he
      rw [List.mem_singleton] at he
      subst he
      exact ⟨by simp, rfl, rfl, List.chain'_singleton _, by simp⟩
    have := bfsM_sound t src dst fuel [(src, [src])] [] p hstart h
    exact ⟨this.1, this.2.1, this.2.2.1, this.2.2.2.1, this.2.2.2.2⟩
  · intro t src dst mh fuel p h hne
    have hstart : ∀ e ∈ [(src, [src])], NEntryOK t src e := by
      intro e he
      rw [List.mem_singleton] at he
      subst he
      exact ⟨by simp, rfl, rfl, List.chain'_singleton _⟩
    exact bfsN_sound t src dst mh fuel [(src, [src])] [] p hstart h hne

/-- C2, witness: the amended theorem applied to the 2×1×1 grid, both drafts
returning the path `[0, 1]`. -/
theorem claim_C2_witness :
    (([0, 1] : List ℕ) ≠ [] ∧ ([0, 1] : List ℕ).head? = some 0
      ∧ ([0, 1] : List ℕ).getLast? = some 1
      ∧ ([0, 1] : List ℕ).Chain' (MStepOK grid211)
      ∧ ∀ v ∈ ([0, 1] : List ℕ).tail, (grid211.getRouterD v).failed = false)
    ∧ (([0, 1] : List ℕ).head? = some 0
      ∧ ([0, 1] : List ℕ).Chain' (NStepOK grid211)) :=
  ⟨claim_C2_theorem.1 grid211 0 1 10 [0, 1] (by decide),
   claim_C2_theorem.2 grid211 0 1 20 10 [0, 1] (by decide) (by decide)⟩

/-- C3: the thermal pass of `noc_simulation`'s `simulate_network` reads each
neighbour's *current* temperature during the in-place update loop (no
snapshot), so it is order-dependent.  On a 2×1×1 topology with temperatures
25°C and 35°C and zero power, the source's iteration order `[0, 1]` yields
temperatures `(30, 32.5)` while the permuted order `[1, 0]` yields
`(27.5, 30)` — different even as multisets, contradicting the claimed
snapshot-then-commit order-independence.  (The `modified` draft's per-cycle
pass reads no neighbour temperatures at all, likewise not the claimed
snapshot pass.) -/
theorem claim_C3_theorem :
    ((NSim.thermalPass topoTherm [0, 1]).routers.map (fun r => r.temperature)
        = [30, 65/2])
    ∧ ((NSim.thermalPass topoTherm [1, 0]).routers.map (fun r => r.temperature)
        = [55/2, 30])
    ∧ Multiset.ofList
        ((NSim.thermalPass topoTherm [0, 1]).routers.map (fun r => r.temperature))
      ≠ Multiset.ofList
        ((NSim.thermalPass topoTherm [1, 0]).routers.map (fun r => r.temperature)) := by
  have h1 : (NSim.thermalPass topoTherm [0, 1]).routers.map (fun r => r.temperature)
      = [30, 65/2] := by decide
  have h2 : (NSim.thermalPass topoTherm [1, 0]).routers.map (fun r => r.temperature)
      = [55/2, 30] := by decide
  refine ⟨h1, h2, ?_⟩
  rw [h1, h2]
  decide

/-- C6, counterexample: `gridNoLinks` has two routers and no links.  In a
cycle where a packet is injected (draw 0 < rate 1) between the distinct
routers 0 and 1, `find_backup_route` returns no route, yet the cycle leaves
the dropped-packet count at 0 (the claim requires it to become 1) and the
sent count at 0; nothing records the failed injection. -/
theorem claim_C6_counterexample :
    MSim.find_backup_route
        { gridNoLinks with clock_cycle := gridNoLinks.clock_cycle + 1 } 0 1 50
      = none
    ∧ (MSim.simulateCycle gridNoLinks stats0 none 1 0 0 1 5 50).2.1.dropped_packets = 0
    ∧ (MSim.simulateCycle gridNoLinks stats0 none 1 0 0 1 5 50).1.total_packets_sent = 0 := by
  exact ⟨by decide, by decide, by decide⟩

/-- C6, amended: in every simulation cycle in which a packet is injected
between two distinct routers and `find_backup_route` returns no route, the
loop leaves both the dropped-packet count and `total_packets_sent` unchanged
and raises no exception — the unroutable packet simply vanishes, uncounted
(the `if route:` block has no else branch in either draft). -/
theorem claim_C6_theorem (t : Wafer3DMeshTopology) (stats : MSim.Stats)
    (lp : Option Packet) (rate injectDraw : ℚ) (srcIdx dstIdx : ℕ)
    (sz : ℤ) (fuel : ℕ)
    (hinj : injectDraw < rate)
    (hne : ({ t with clock_cycle := t.clock_cycle + 1 }.getRouterD srcIdx).router_id
        ≠ ({ t with clock_cycle := t.clock_cycle + 1 }.getRouterD dstIdx).router_id)
    (hroute : MSim.find_backup_route { t with clock_cycle := t.clock_cycle + 1 }
        ({ t with clock_cycle := t.clock_cycle + 1 }.getRouterD srcIdx).router_id
        ({ t with clock_cycle := t.clock_cycle + 1 }.getRouterD dstIdx).router_id
        fuel = none) :
    (MSim.simulateCycle t stats lp rate injectDraw srcIdx dstIdx sz fuel).2.1.dropped_packets
        = stats.dropped_packets
    ∧ (MSim.simulateCycle t stats lp rate injectDraw srcIdx dstIdx sz fuel).1.total_packets_sent
        = t.total_packets_sent := by
  simp only [MSim.simulateCycle]
  rw [if_pos hinj, if_pos hne, hroute]
  exact ⟨rfl, rfl⟩

/-- C6, witness: the amended theorem applied to the linkless two-router
topology with injection draw 0, rate 1, source index 0, destination index
1. -/
theorem claim_C6_witness :
    (MSim.simulateCycle gridNoLinks stats0 none 1 0 0 1 5 50).2.1.dropped_packets
        = stats0.dropped_packets
    ∧ (MSim.simulateCycle gridNoLinks stats0 none 1 0 0 1 5 50).1.total_packets_sent
        = gridNoLinks.total_packets_sent :=
  claim_C6_theorem gridNoLinks stats0 none 1 0 0 1 5 50
    (by decide) (by decide) (by decide)

/-- C7: the latency statistic of the `modified` draft's `simulate_network`
evaluated at two concrete cycle states.  (a) `topoQueues` is at clock 9 with
head packets created at cycles 1 and 3 queued at routers 0 and 1, and the
function-scoped `packet` variable holds the last injected packet, created at
cycle 5; in a cycle with no injection the appended latency is `10 - 5 = 5`
for every queued router — it reads `packet.creation_time`, the leaked
injection-loop variable, not each router's queued head packet, for which the
claimed mean would be `((10-1) + (10-3)) / 2 = 8`.  (b) On a state where no
router has a non-empty queue, the appended value is `np.mean([])`, i.e. NaN
(modelled `none`) — NaN is truthy in Python, so the `avg if avg else 0`
guard keeps it, and the claimed 0 is not appended. -/
theorem claim_C7_theorem :
    (MSim.simulateCycle topoQueues stats0 (some (pktAt 5)) 0 0 0 1 2 50).2.1.latency
        = [some 5]
    ∧ (((10 : ℚ) - 1) + ((10 : ℚ) - 3)) / 2 = 8
    ∧ (5 : ℚ) ≠ 8
    ∧ (MSim.simulateCycle grid211 stats0 none 0 0 0 1 2 50).2.1.latency = [none] := by
  exact ⟨by decide, by decide, by decide, by decide⟩

/-- C10, witness: the theorem applied to a concrete failed router with
occupancy 3 of 64. -/
theorem claim_C10_witness :
    (failedRoomRouter.process_packet (pktAt 0)).2 = true
    ∧ (failedRoomRouter.process_packet (pktAt 0)).1.packet_queue
        = failedRoomRouter.packet_queue ++ [pktAt 0]
    ∧ (failedRoomRouter.process_packet (pktAt 0)).1.current_buffer_usage
        = failedRoomRouter.current_buffer_usage + 1
    ∧ (failedRoomRouter.process_packet (pktAt 0)).1.power_consumption
        = failedRoomRouter.power_consumption + (1/10) * (((pktAt 0)).size : ℚ)
    ∧ (failedRoomRouter.process_packet (pktAt 0)).1.failed = true :=
  claim_C10_theorem failedRoomRouter (pktAt 0) (by decide) (by decide)

end NoCSim
